import Mathlib

/-!
Shallow embedding of the authentication core of the MERN backend
(src/backend/src/models/User.js, src/backend/src/controllers/authController.js,
src/backend/src/middleware/auth.js).

Timestamps are modelled as natural numbers: `Nat` milliseconds since the epoch
for `Date.now()`-style values stored on records, and `Nat` seconds for JWT
`iat`/`exp` claims (jsonwebtoken uses whole seconds).  Password hashing
(bcrypt) and SHA-256 are modelled as parameters `bhash`/`sha256 : String →
String`: the code only ever compares hashes for equality, so the theorems are
quantified over the hash function.
-/

namespace MernAuth

/-- One entry of the `refreshTokens` array on the user schema
(`User.js` lines 96-102): the stored token string and its creation time. -/
structure RefreshTokenEntry where
  token : String
  createdAt : Nat
deriving Repr, DecidableEq

/-- The user record, restricted to the fields the authentication core reads or
writes (`User.js` schema).  `Option` models a Mongo field that may be absent
(`lockUntil`, `passwordResetToken`, ...); `active` and `emailVerified` default
to `true`/`false` in the schema and are modelled as total booleans. -/
structure User where
  id : Nat
  firstName : String
  lastName : String
  email : String
  username : String
  role : String
  /-- the bcrypt hash stored in the `password` field -/
  password : String
  passwordChangedAt : Option Nat
  passwordResetToken : Option String
  passwordResetExpires : Option Nat
  emailVerificationToken : Option String
  emailVerified : Bool
  emailVerificationExpires : Option Nat
  active : Bool
  lastLogin : Option Nat
  loginAttempts : Nat
  lockUntil : Option Nat
  refreshTokens : List RefreshTokenEntry
deriving Repr, DecidableEq

/-- Which signing secret a JWT was produced with (`config.jwt.secret` vs
`config.jwt.refreshSecret`). -/
inductive Secret where
  | access
  | refresh
deriving Repr, DecidableEq

/-- A decoded JWT payload: `jwt.sign({ id }, secret, { expiresIn })` produces a
token carrying the user id, an issued-at and an expiry, both in seconds.
Signature validity is modelled by tracking which secret signed the token. -/
structure Jwt where
  id : Nat
  iat : Nat
  exp : Nat
  secret : Secret
deriving Repr, DecidableEq

/-- Modelling `jwt.verify(token, secret)`: it succeeds iff the token was signed with the
expected secret and has not expired (`nowSec` in seconds). -/
def verifyJwt (t : Jwt) (s : Secret) (nowSec : Nat) : Bool :=
  t.secret == s && nowSec < t.exp

/-- The `isLocked` virtual (`User.js` 161-163):
`!!(this.lockUntil && this.lockUntil > Date.now())`. -/
def isLocked (u : User) (nowMs : Nat) : Bool :=
  match u.lockUntil with
  | some lu => nowMs < lu
  | none => false

/-- Method `changedPasswordAfter` (`User.js` 204-213): converts `passwordChangedAt`
to whole seconds (`parseInt(getTime()/1000, 10)`, i.e. floor division) and
returns `JWTTimestamp < changedTimestamp`; `false` when the field is absent. -/
def changedPasswordAfter (u : User) (jwtIat : Nat) : Bool :=
  match u.passwordChangedAt with
  | some ms => jwtIat < ms / 1000
  | none => false

/-- An `ApiError(statusCode, message)` as raised throughout the controllers. -/
structure ApiError where
  status : Nat
  message : String
deriving Repr, DecidableEq

/-- The `userSchema.pre(/^find/)` hook (`User.js` 192-196) adds
`{ active: { $ne: false } }` to every find query, so `findById` only
returns users whose `active` flag is not `false`. -/
def findActiveById (db : List User) (id : Nat) : Option User :=
  db.find? (fun u => u.id == id && u.active)

/-- Lookup `findOne({ email })` with the same pre-find active filter applied. -/
def findActiveByEmail (db : List User) (email : String) : Option User :=
  db.find? (fun u => u.email == email && u.active)

/-- The `protect` middleware (`auth.js` 15-59): extract the bearer token,
verify it against the access secret, load the user (through the pre-find
active filter), reject if the password changed after the token's `iat`,
reject if inactive, otherwise attach the user. -/
def protect (db : List User) (token : Option Jwt) (nowSec : Nat) :
    Except ApiError User :=
  match token with
  | none =>
      .error ⟨401, "You are not logged in! Please log in to get access."⟩
  | some t =>
      if verifyJwt t Secret.access nowSec then
        match findActiveById db t.id with
        | none =>
            .error ⟨401, "The user belonging to this token does no longer exist."⟩
        | some currentUser =>
            if changedPasswordAfter currentUser t.iat then
              .error ⟨401, "User recently changed password! Please log in again."⟩
            else if !currentUser.active then
              .error ⟨401, "Your account has been deactivated. Please contact support."⟩
            else
              .ok currentUser
      else
        -- jwt.verify throws (JsonWebTokenError / TokenExpiredError); the
        -- rejection surfaces as a 401 through the global error handler.
        .error ⟨401, "Invalid token. Please log in again."⟩

/-- The `optionalAuth` middleware (`auth.js` 111-137): same extraction, but
every failure inside the `try` is swallowed and the request proceeds; the
user is attached only when the token verifies, the user is found (active
filter), its `active` flag is set, and the password has not changed since
the token was issued.  The result is `.ok (some u)` when a user is attached
and `.ok none` when the request proceeds anonymously. -/
def optionalAuth (db : List User) (token : Option Jwt) (nowSec : Nat) :
    Except ApiError (Option User) :=
  match token with
  | none => .ok none
  | some t =>
      if verifyJwt t Secret.access nowSec then
        match findActiveById db t.id with
        | some currentUser =>
            if currentUser.active && !changedPasswordAfter currentUser t.iat then
              .ok (some currentUser)
            else
              .ok none
        | none => .ok none
      else
        -- catch branch: "Token is invalid, but we don't throw an error"
        .ok none

/-- Method `incLoginAttempts` (`User.js` 244-265).  If a previous lock has expired
(`lockUntil && lockUntil < Date.now()`), unset the lock and restart the
counter at 1.  Otherwise apply `$inc: { loginAttempts: 1 }`, and if the
incremented count reaches 5 while the account is not locked, also
`$set: { lockUntil: Date.now() + 2h }`. -/
def incLoginAttempts (u : User) (nowMs : Nat) : User :=
  match u.lockUntil with
  | some lu =>
      if lu < nowMs then
        { u with lockUntil := none, loginAttempts := 1 }
      else
        { u with
            loginAttempts := u.loginAttempts + 1,
            lockUntil :=
              if u.loginAttempts + 1 ≥ 5 && !isLocked u nowMs then
                some (nowMs + 2 * 60 * 60 * 1000)
              else u.lockUntil }
  | none =>
      { u with
          loginAttempts := u.loginAttempts + 1,
          lockUntil :=
            if u.loginAttempts + 1 ≥ 5 && !isLocked u nowMs then
              some (nowMs + 2 * 60 * 60 * 1000)
            else u.lockUntil }

/-- Method `resetLoginAttempts` (`User.js` 268-275): `$unset` both fields; a missing
`loginAttempts` reads back as the schema default 0. -/
def resetLoginAttempts (u : User) : User :=
  { u with loginAttempts := 0, lockUntil := none }

/-- The refresh-token bookkeeping inside `createSendToken`
(`authController.js` 38-47): push the new entry, and when the list exceeds
5 keep only the last 5 (`slice(-5)`). -/
def pushRefreshToken (l : List RefreshTokenEntry) (e : RefreshTokenEntry) :
    List RefreshTokenEntry :=
  let l2 := l ++ [e]
  if 5 < l2.length then l2.drop (l2.length - 5) else l2

/-- The effect of `createSendToken` on the stored user record: append the
freshly signed refresh-token string with its creation time and apply the
5-entry cap.  (The access token and the HTTP response do not touch the
record.) -/
def createSendTokenUser (u : User) (newRefreshToken : String) (nowMs : Nat) :
    User :=
  { u with refreshTokens := pushRefreshToken u.refreshTokens ⟨newRefreshToken, nowMs⟩ }

/-- Persisting a modified user document: replace every record carrying the
same `_id`. -/
def updateUserInDb (db : List User) (u : User) : List User :=
  db.map (fun v => if v.id == u.id then u else v)

/-- The `login` controller (`authController.js` 131-163), returning the
updated store together with the outcome.  `bhash` models bcrypt:
`correctPassword(candidate, stored)` is `bhash candidate == stored`.
Order of checks follows the source: missing fields → 400; locked account →
423 (before any password comparison); missing user or wrong password → 401
(incrementing the attempt counter when the user exists); success → clear
attempt/lock state, stamp `lastLogin`, and issue tokens via
`createSendToken`. -/
def login (bhash : String → String) (db : List User)
    (email password newRefreshToken : String) (nowMs : Nat) :
    List User × Except ApiError User :=
  if email.isEmpty || password.isEmpty then
    (db, .error ⟨400, "Please provide email and password!"⟩)
  else
    match findActiveByEmail db email with
    | none => (db, .error ⟨401, "Incorrect email or password"⟩)
    | some user =>
        if isLocked user nowMs then
          (db, .error ⟨423, "Account temporarily locked due to too many failed login attempts"⟩)
        else if bhash password == user.password then
          let u2 := { resetLoginAttempts user with lastLogin := some nowMs }
          let u3 := createSendTokenUser u2 newRefreshToken nowMs
          (updateUserInDb db u3, .ok u3)
        else
          (updateUserInDb db (incLoginAttempts user nowMs),
           .error ⟨401, "Incorrect email or password"⟩)

/-- The `logout` controller (`authController.js` 168-190).  Input: the
`refreshToken` cookie and the authenticated user (`req.user`), if any.
Output: the user record written back to the store (`none` = no write) and
the HTTP status/message, which is always `200 / successful`. -/
def logout (cookie : Option String) (reqUser : Option User) :
    Option User × Nat × String :=
  match cookie, reqUser with
  | some rt, some u =>
      (some { u with refreshTokens := u.refreshTokens.filter (fun e => e.token != rt) },
       200, "Logged out successfully")
  | some _, none => (none, 200, "Logged out successfully")
  | none, _ => (none, 200, "Logged out successfully")

/-- The `refreshToken` controller (`authController.js` 195-218).
`verifyRefresh` models `jwt.verify(·, config.jwt.refreshSecret)`: `none`
means the signature/expiry check throws.  A verified token must belong to an
existing (active) user and its exact string must appear in the user's stored
`refreshTokens` list; only then is a new pair issued via `createSendToken`. -/
def refreshTokenOp (verifyRefresh : String → Option Jwt) (db : List User)
    (cookie : Option String) (newRefreshToken : String) (nowMs : Nat) :
    List User × Except ApiError User :=
  match cookie with
  | none => (db, .error ⟨401, "No refresh token provided"⟩)
  | some rts =>
      match verifyRefresh rts with
      | none => (db, .error ⟨401, "Invalid token. Please log in again."⟩)
      | some decoded =>
          match findActiveById db decoded.id with
          | none => (db, .error ⟨401, "Invalid refresh token"⟩)
          | some user =>
              if user.refreshTokens.any (fun e => e.token == rts) then
                let u2 := createSendTokenUser user newRefreshToken nowMs
                (updateUserInDb db u2, .ok u2)
              else
                (db, .error ⟨401, "Invalid refresh token"⟩)

/-- The `forgotPassword` controller (`authController.js` 223-252): look the
user up by email (pre-find active filter applies); unknown email → 404 with
no state change; otherwise store the SHA-256 hash of the fresh random token
with a 10-minute expiry (`createPasswordResetToken`, `User.js` 216-227). -/
def forgotPassword (sha256 : String → String) (db : List User)
    (email resetPlain : String) (nowMs : Nat) :
    List User × Except ApiError Unit :=
  match findActiveByEmail db email with
  | none => (db, .error ⟨404, "There is no user with that email address."⟩)
  | some user =>
      let u2 := { user with
                    passwordResetToken := some (sha256 resetPlain),
                    passwordResetExpires := some (nowMs + 10 * 60 * 1000) }
      (updateUserInDb db u2, .ok ())

/-- The schema validation run by a full `user.save()` on the password paths:
minimum length 8 and `passwordConfirm === password`. -/
def validPassword (password passwordConfirm : String) : Bool :=
  8 ≤ password.length && password == passwordConfirm

/-- The two password pre-save hooks (`User.js` 166-189) as they apply to an
existing record whose password was modified: bcrypt-hash the new password
and set `passwordChangedAt = Date.now() - 1000`. -/
def applyPasswordChange (bhash : String → String) (u : User)
    (newPassword : String) (saveMs : Nat) : User :=
  { u with
      password := bhash newPassword,
      passwordChangedAt := some (saveMs - 1000) }

/-- The `findOne` query of `resetPassword` (`authController.js` 264-267):
stored reset-token hash equals the hash of the presented token and the
expiry lies strictly in the future; the pre-find active filter applies. -/
def findResetMatch (db : List User) (hashed : String) (nowMs : Nat) :
    Option User :=
  db.find? (fun u =>
    u.active &&
    u.passwordResetToken == some hashed &&
    (match u.passwordResetExpires with
     | some e => nowMs < e
     | none => false))

/-- The `resetPassword` controller (`authController.js` 257-284): hash the
presented plaintext, find a matching unexpired user (else 400); set the new
password through a validating save (hash + `passwordChangedAt` skew), clear
both reset-token fields, then issue tokens via `createSendToken`. -/
def resetPassword (bhash sha256 : String → String) (db : List User)
    (plainToken password passwordConfirm newRefreshToken : String)
    (nowMs : Nat) : List User × Except ApiError User :=
  let hashedToken := sha256 plainToken
  match findResetMatch db hashedToken nowMs with
  | none => (db, .error ⟨400, "Token is invalid or has expired"⟩)
  | some user =>
      if validPassword password passwordConfirm then
        let u2 := { applyPasswordChange bhash user password nowMs with
                      passwordResetToken := none,
                      passwordResetExpires := none }
        let u3 := createSendTokenUser u2 newRefreshToken nowMs
        (updateUserInDb db u3, .ok u3)
      else
        (db, .error ⟨400, "Validation failed"⟩)

/-! Concrete records used by witnesses and counterexamples. -/

/-- A concrete active user record with no pending tokens or locks. -/
def sampleUser : User :=
  { id := 1, firstName := "A", lastName := "B", email := "a@b.com",
    username := "ab1", role := "user", password := "h;Secret123",
    passwordChangedAt := none, passwordResetToken := none,
    passwordResetExpires := none, emailVerificationToken := none,
    emailVerified := false, emailVerificationExpires := none,
    active := true, lastLogin := none, loginAttempts := 0,
    lockUntil := none, refreshTokens := [] }

/-! ### C8: forgot-password with an unknown email -/

/-- C8: a forgot-password request whose email matches no stored user fails
with a 404 NotFound error and leaves the store unchanged (no reset token is
generated or stored). -/
theorem forgotPassword_unknown_email_404 (sha256 : String → String)
    (db : List User) (email resetPlain : String) (nowMs : Nat)
    (hnone : ∀ v ∈ db, v.email ≠ email) :
    forgotPassword sha256 db email resetPlain nowMs =
      (db, .error ⟨404, "There is no user with that email address."⟩) := by
  have hfind : findActiveByEmail db email = none := by
    rw [findActiveByEmail, List.find?_eq_none]
    intro v hv
    simp [hnone v hv]
  rw [forgotPassword, hfind]

/-- Witness for C8 at a concrete store and email. -/
theorem forgotPassword_unknown_email_404_witness :
    forgotPassword (fun s => String.append "s;" s) [sampleUser] "x@y.com" "tk" 0 =
      ([sampleUser], .error ⟨404, "There is no user with that email address."⟩) :=
  forgotPassword_unknown_email_404 _ _ _ _ _ (by decide)

/-! ### C9: optional authentication never fails -/

/-- C9: `optionalAuth` never fails the request: on every input it proceeds
(`.ok`), and it attaches a user only when the token verifies under the
access secret, the subject resolves through the active-filtered lookup, the
user's `active` flag is set, and the password was not changed after the
token's issued-at. -/
theorem optionalAuth_never_fails (db : List User) (token : Option Jwt)
    (nowSec : Nat) :
    (∃ r, optionalAuth db token nowSec = .ok r) ∧
    (∀ u, optionalAuth db token nowSec = .ok (some u) →
       ∃ t, token = some t ∧ verifyJwt t Secret.access nowSec = true ∧
         findActiveById db t.id = some u ∧ u.active = true ∧
         changedPasswordAfter u t.iat = false) := by
  constructor
  · cases token with
    | none => exact ⟨none, rfl⟩
    | some t =>
        rw [optionalAuth]
        by_cases hv : verifyJwt t Secret.access nowSec = true
        · simp only [hv, if_true]
          cases hfind : findActiveById db t.id with
          | none => exact ⟨none, rfl⟩
          | some u =>
              by_cases hc : (u.active && !changedPasswordAfter u t.iat) = true
              · exact ⟨some u, by simp [hc]⟩
              · exact ⟨none, by simp [hc]⟩
        · simp [hv]
  · intro u h
    cases token with
    | none => simp [optionalAuth] at h
    | some t =>
        rw [optionalAuth] at h
        by_cases hv : verifyJwt t Secret.access nowSec = true
        · simp only [hv, if_true] at h
          cases hfind : findActiveById db t.id with
          | none => rw [hfind] at h; simp at h
          | some w =>
              rw [hfind] at h
              by_cases hc : (w.active && !changedPasswordAfter w t.iat) = true
              · simp only [hc, if_true, Except.ok.injEq, Option.some.injEq] at h
                subst h
                have ha : w.active = true := by
                  cases hw : w.active with
                  | true => rfl
                  | false => rw [hw] at hc; simp at hc
                have hn : changedPasswordAfter w t.iat = false := by
                  cases hcc : changedPasswordAfter w t.iat with
                  | false => rfl
                  | true => rw [hcc] at hc; simp at hc
                exact ⟨t, rfl, hv, hfind, ha, hn⟩
              · simp [hc] at h
        · simp [hv] at h

/-- Witness for C9: the attachment condition extracted at a concrete store
and token. -/
theorem optionalAuth_never_fails_witness :
    ∃ t, (some ⟨1, 0, 10, Secret.access⟩ : Option Jwt) = some t ∧
      verifyJwt t Secret.access 1 = true ∧
      findActiveById [sampleUser] t.id = some sampleUser ∧
      sampleUser.active = true ∧
      changedPasswordAfter sampleUser t.iat = false :=
  (optionalAuth_never_fails [sampleUser] (some ⟨1, 0, 10, Secret.access⟩) 1).2
    sampleUser (by rfl)

/-! ### C10: logout only touches refresh-token bookkeeping -/

/-- C10: logout always answers 200 success; with a cookie and an
authenticated user it removes exactly the stored entries equal to the
presented refresh token and leaves every other field of the record
unchanged; without a cookie or without a user it writes nothing. -/
theorem logout_frame (cookie : Option String) (reqUser : Option User) :
    (logout cookie reqUser).2 = (200, "Logged out successfully") ∧
    (∀ rt u, cookie = some rt → reqUser = some u →
       ∃ u2, (logout cookie reqUser).1 = some u2 ∧
         u2.refreshTokens = u.refreshTokens.filter (fun e => e.token != rt) ∧
         (∀ e, e ∈ u2.refreshTokens ↔ e ∈ u.refreshTokens ∧ e.token ≠ rt) ∧
         u2.id = u.id ∧ u2.firstName = u.firstName ∧ u2.lastName = u.lastName ∧
         u2.email = u.email ∧ u2.username = u.username ∧ u2.role = u.role ∧
         u2.password = u.password ∧
         u2.passwordChangedAt = u.passwordChangedAt ∧
         u2.passwordResetToken = u.passwordResetToken ∧
         u2.passwordResetExpires = u.passwordResetExpires ∧
         u2.emailVerificationToken = u.emailVerificationToken ∧
         u2.emailVerified = u.emailVerified ∧
         u2.emailVerificationExpires = u.emailVerificationExpires ∧
         u2.active = u.active ∧ u2.lastLogin = u.lastLogin ∧
         u2.loginAttempts = u.loginAttempts ∧ u2.lockUntil = u.lockUntil) ∧
    ((cookie = none ∨ reqUser = none) → (logout cookie reqUser).1 = none) := by
  refine ⟨?_, ?_, ?_⟩
  · cases cookie <;> cases reqUser <;> rfl
  · intro rt u hc hu
    subst hc; subst hu
    refine ⟨_, rfl, rfl, ?_, by simp [logout]⟩
    intro e
    rw [List.mem_filter]
    simp
  · intro h
    rcases h with h | h <;> subst h
    · rfl
    · cases cookie <;> rfl

/-- Witness for C10 at a concrete cookie and user. -/
theorem logout_frame_witness :
    ∃ u2,
      (logout (some "r1")
        (some { sampleUser with
                  refreshTokens := [⟨"r1", 0⟩, ⟨"r2", 1⟩, ⟨"r1", 2⟩] })).1 = some u2 ∧
      u2.refreshTokens =
        ([⟨"r1", 0⟩, ⟨"r2", 1⟩, ⟨"r1", 2⟩] :
          List RefreshTokenEntry).filter (fun e => e.token != "r1") ∧
      (∀ e, e ∈ u2.refreshTokens ↔
         e ∈ ([⟨"r1", 0⟩, ⟨"r2", 1⟩, ⟨"r1", 2⟩] : List RefreshTokenEntry) ∧
           e.token ≠ "r1") ∧
      u2.id = sampleUser.id ∧ u2.firstName = sampleUser.firstName ∧
      u2.lastName = sampleUser.lastName ∧ u2.email = sampleUser.email ∧
      u2.username = sampleUser.username ∧ u2.role = sampleUser.role ∧
      u2.password = sampleUser.password ∧
      u2.passwordChangedAt = sampleUser.passwordChangedAt ∧
      u2.passwordResetToken = sampleUser.passwordResetToken ∧
      u2.passwordResetExpires = sampleUser.passwordResetExpires ∧
      u2.emailVerificationToken = sampleUser.emailVerificationToken ∧
      u2.emailVerified = sampleUser.emailVerified ∧
      u2.emailVerificationExpires = sampleUser.emailVerificationExpires ∧
      u2.active = sampleUser.active ∧ u2.lastLogin = sampleUser.lastLogin ∧
      u2.loginAttempts = sampleUser.loginAttempts ∧
      u2.lockUntil = sampleUser.lockUntil :=
  (logout_frame (some "r1")
      (some { sampleUser with
                refreshTokens := [⟨"r1", 0⟩, ⟨"r2", 1⟩, ⟨"r1", 2⟩] })).2.1
    "r1" _ rfl rfl

/-! ### C2: a signed but unlisted refresh token is rejected -/

/-- C2: a refresh-token request whose cookie verifies under the refresh
secret and whose subject resolves to an existing user is still rejected with
401 "Invalid refresh token" when the presented value is absent from the
user's stored `refreshTokens` list, and the store is left unchanged (no new
token pair is issued). -/
theorem refresh_unlisted_token_rejected (verifyRefresh : String → Option Jwt)
    (db : List User) (rts : String) (decoded : Jwt) (user : User)
    (newRt : String) (nowMs : Nat)
    (hv : verifyRefresh rts = some decoded)
    (hu : findActiveById db decoded.id = some user)
    (habsent : ∀ e ∈ user.refreshTokens, e.token ≠ rts) :
    refreshTokenOp verifyRefresh db (some rts) newRt nowMs =
      (db, .error ⟨401, "Invalid refresh token"⟩) := by
  have hany : user.refreshTokens.any (fun e => e.token == rts) = false := by
    rw [List.any_eq_false]
    intro e he
    simp [habsent e he]
  simp only [refreshTokenOp, hv, hu, hany]
  simp

/-- Witness for C2 at a concrete verifier, store and cookie. -/
theorem refresh_unlisted_token_rejected_witness :
    refreshTokenOp
      (fun s => if s == "forged" then some ⟨1, 0, 999, Secret.refresh⟩ else none)
      [{ sampleUser with refreshTokens := [⟨"listed", 0⟩] }]
      (some "forged") "fresh" 50 =
      ([{ sampleUser with refreshTokens := [⟨"listed", 0⟩] }],
       .error ⟨401, "Invalid refresh token"⟩) :=
  refresh_unlisted_token_rejected _ _ _ ⟨1, 0, 999, Secret.refresh⟩
    { sampleUser with refreshTokens := [⟨"listed", 0⟩] } _ _
    (by rfl) (by rfl) (by decide)

/-! ### C7: protect on a missing vs deactivated user -/

/-- A deactivated copy of the sample user, invisible to the pre-find
active filter. -/
def inactiveUser : User := { sampleUser with active := false }

/-- Counterexample to C7: a valid token for an existing user whose `active`
flag is `false` does not produce the dedicated "account has been
deactivated" message; because the pre-find hook filters inactive users out
of `findById`, `protect` answers with the "does no longer exist" message,
which differs from the deactivated one the claim asserts. -/
theorem protect_inactive_user_message_counterexample :
    protect [inactiveUser] (some ⟨1, 0, 10, Secret.access⟩) 1 =
      .error ⟨401, "The user belonging to this token does no longer exist."⟩ ∧
    ("The user belonging to this token does no longer exist." ≠
      "Your account has been deactivated. Please contact support.") := by
  constructor
  · rfl
  · decide

/-- C7 amended: when every stored user carrying the token's subject id is
inactive — which covers both a deleted subject and a deactivated one —
`protect` fails as Unauthenticated with the single "user no longer exists"
message; the distinct "account deactivated" message is unreachable through
`protect` because the pre-find active filter hides inactive users from the
lookup. -/
theorem protect_missing_or_inactive_same_message (db : List User) (tok : Jwt)
    (nowSec : Nat)
    (hverify : verifyJwt tok Secret.access nowSec = true)
    (hgone : ∀ v ∈ db, v.id = tok.id → v.active = false) :
    protect db (some tok) nowSec =
      .error ⟨401, "The user belonging to this token does no longer exist."⟩ := by
  have hfind : findActiveById db tok.id = none := by
    rw [findActiveById, List.find?_eq_none]
    intro v hv
    by_cases hid : v.id = tok.id
    · simp [hgone v hv hid]
    · simp [hid]
  rw [protect, hfind]
  simp [hverify]

/-- Witness for C7's amended theorem at a concrete store holding only a
deactivated user. -/
theorem protect_missing_or_inactive_same_message_witness :
    protect [inactiveUser] (some ⟨1, 3, 10, Secret.access⟩) 4 =
      .error ⟨401, "The user belonging to this token does no longer exist."⟩ :=
  protect_missing_or_inactive_same_message [inactiveUser]
    ⟨1, 3, 10, Secret.access⟩ 4 (by rfl) (by decide)

/-! ### C1: password change vs tokens issued in the same second -/

/-- The sample user after a password change saved at 5000 ms: the pre-save
hook sets `passwordChangedAt` to 4000 ms (one second before the save). -/
def c1ChangedUser : User :=
  applyPasswordChange (fun s => String.append "h;" s)
    { sampleUser with passwordChangedAt := some 0 } "NewSecret1" 5000

/-- Counterexample to C1: a token issued in the same second as the password
change (issued-at second 5, change saved at 5000 ms) is accepted by
`protect`, not rejected with the recently-changed message: the skew stores
`passwordChangedAt = saveMs - 1000`, whose second is 4, and `5 < 4` fails. -/
theorem protect_same_second_token_counterexample :
    c1ChangedUser.passwordChangedAt = some (5000 - 1000) ∧
    protect [c1ChangedUser] (some ⟨1, 5, 999999, Secret.access⟩) 6 =
      .ok c1ChangedUser := by
  constructor
  · rfl
  · rfl

/-- C1 amended: after a password change saved at `saveMs` (reset-password or
update-password, storing `passwordChangedAt = saveMs - 1000`), `protect`
rejects an old token with "User recently changed password! Please log in
again." exactly when the token's issued-at second is strictly below the
second of the skewed timestamp, `(saveMs - 1000) / 1000`; a token issued in
the same second as the change (or the second before it) is not invalidated. -/
theorem protect_stale_token_after_password_change (bhash : String → String)
    (db : List User) (u : User) (newPw : String) (saveMs : Nat) (tok : Jwt)
    (nowSec : Nat)
    (hfind : findActiveById db tok.id =
      some (applyPasswordChange bhash u newPw saveMs))
    (hverify : verifyJwt tok Secret.access nowSec = true)
    (hiat : tok.iat < (saveMs - 1000) / 1000) :
    protect db (some tok) nowSec =
      .error ⟨401, "User recently changed password! Please log in again."⟩ := by
  have hch : changedPasswordAfter (applyPasswordChange bhash u newPw saveMs)
      tok.iat = true := by
    simp [changedPasswordAfter, applyPasswordChange, hiat]
  simp [protect, hverify, hfind, hch]

/-- Witness for C1's amended theorem: a token issued two seconds before a
change saved at 10000 ms is rejected. -/
theorem protect_stale_token_after_password_change_witness :
    protect
      [applyPasswordChange (fun s => String.append "h;" s)
        { sampleUser with passwordChangedAt := some 0 } "NewSecret1" 10000]
      (some ⟨1, 7, 999999, Secret.access⟩) 11 =
      .error ⟨401, "User recently changed password! Please log in again."⟩ :=
  protect_stale_token_after_password_change
    (fun s => String.append "h;" s) _
    { sampleUser with passwordChangedAt := some 0 } "NewSecret1" 10000
    ⟨1, 7, 999999, Secret.access⟩ 11 (by rfl) (by rfl) (by decide)

/-! ### C4: failed-login counting and the lockout write -/

/-- A user four failed attempts in, not locked. -/
def c4User : User := { sampleUser with loginAttempts := 4 }

/-- Counterexample to C4: the failed attempt that reaches 5 consecutive
failures sets `lockUntil = now + 2h` but does not reset the counter — the
single `updateOne` both increments `loginAttempts` (to 5) and sets the
lock. -/
theorem incLoginAttempts_no_counter_reset_counterexample :
    (incLoginAttempts c4User 1000).lockUntil =
      some (1000 + 2 * 60 * 60 * 1000) ∧
    (incLoginAttempts c4User 1000).loginAttempts = 5 ∧
    ¬ (incLoginAttempts c4User 1000).loginAttempts = 0 := by
  refine ⟨rfl, rfl, ?_⟩
  decide

/-- C4 amended: for an account that is not currently locked, a failed login
behaves as follows.  With no stored lock timestamp, the counter is
incremented by one, and when the incremented count reaches 5 the lock is set
to now + 2 hours while the counter stays at 5 (it is reset only by a
successful login, or restarted by the next failure after a lock expires).
With an expired stored lock, the failure clears the lock and restarts the
counter at 1. -/
theorem incLoginAttempts_amended (u : User) (nowMs : Nat)
    (hnl : isLocked u nowMs = false) :
    (u.lockUntil = none →
       incLoginAttempts u nowMs =
         { u with
             loginAttempts := u.loginAttempts + 1,
             lockUntil :=
               if 5 ≤ u.loginAttempts + 1 then
                 some (nowMs + 2 * 60 * 60 * 1000)
               else none }) ∧
    (∀ lu, u.lockUntil = some lu → lu < nowMs →
       incLoginAttempts u nowMs =
         { u with lockUntil := none, loginAttempts := 1 }) := by
  constructor
  · intro hN
    simp only [incLoginAttempts, hN, hnl]
    by_cases h5 : 5 ≤ u.loginAttempts + 1
    · simp [h5]
    · simp [h5, hN]
  · intro lu hS hlt
    simp [incLoginAttempts, hS, hlt]

/-- Witness for C4's amended theorem: the fifth failure from four prior
attempts locks for two hours and leaves the counter at 5. -/
theorem incLoginAttempts_amended_witness :
    incLoginAttempts c4User 1000 =
      { c4User with
          loginAttempts := c4User.loginAttempts + 1,
          lockUntil :=
            if 5 ≤ c4User.loginAttempts + 1 then
              some (1000 + 2 * 60 * 60 * 1000)
            else none } :=
  (incLoginAttempts_amended c4User 1000 (by rfl)).1 (by rfl)

/-! ### C5: the refresh-token list is bounded by 5 -/

/-- States of a user's `refreshTokens` list reachable through the
controllers: a fresh record starts empty (schema default), every issuance
(signup, login, refresh-token) goes through the `createSendToken` push, and
logout filters entries out. -/
inductive RefreshListReachable : List RefreshTokenEntry → Prop
  | fresh : RefreshListReachable []
  | issue (l : List RefreshTokenEntry) (e : RefreshTokenEntry) :
      RefreshListReachable l → RefreshListReachable (pushRefreshToken l e)
  | revoke (l : List RefreshTokenEntry) (rt : String) :
      RefreshListReachable l →
      RefreshListReachable (l.filter (fun e => e.token != rt))

/-- Pushing through the 5-entry cap always lands at length at most 5. -/
theorem pushRefreshToken_length_le (l : List RefreshTokenEntry)
    (e : RefreshTokenEntry) : (pushRefreshToken l e).length ≤ 5 := by
  unfold pushRefreshToken
  by_cases h : 5 < (l ++ [e]).length
  · simp only [h, if_true, List.length_drop]
    omega
  · simp only [h, if_false]
    omega

/-- C5: along every sequence of signup/login/refresh (and logout) operations
the stored refresh-token list keeps at most 5 entries, and each issuance
appends the new token and keeps exactly the last 5 entries in order (FIFO
eviction of the oldest). -/
theorem refreshTokens_bounded :
    (∀ l, RefreshListReachable l → l.length ≤ 5) ∧
    (∀ (l : List RefreshTokenEntry) (e : RefreshTokenEntry),
       pushRefreshToken l e = (l ++ [e]).drop ((l ++ [e]).length - 5)) := by
  constructor
  · intro l h
    induction h with
    | fresh => simp
    | issue l e _ _ => exact pushRefreshToken_length_le l e
    | revoke l rt _ ih => exact le_trans (List.length_filter_le _ _) ih
  · intro l e
    show (if 5 < (l ++ [e]).length then
            (l ++ [e]).drop ((l ++ [e]).length - 5)
          else l ++ [e]) = (l ++ [e]).drop ((l ++ [e]).length - 5)
    by_cases h : 5 < (l ++ [e]).length
    · rw [if_pos h]
    · rw [if_neg h]
      have h0 : (l ++ [e]).length - 5 = 0 := by omega
      rw [h0, List.drop_zero]

/-- Witness for C5: a list reached by one issuance respects the bound. -/
theorem refreshTokens_bounded_witness :
    (pushRefreshToken [] ⟨"r1", 0⟩).length ≤ 5 :=
  refreshTokens_bounded.1 _
    (RefreshListReachable.issue [] ⟨"r1", 0⟩ RefreshListReachable.fresh)

/-! ### C6: a password-reset token is single-use -/

/-- After the consuming user's reset-token hash has been cleared and written
back, no user in the store matches that hash any more (provided the
consumer was the only holder of the hash, as with a fresh random token). -/
theorem findResetMatch_after_clear (db : List User) (u2 : User)
    (hashed : String) (t2 : Nat)
    (hclear : u2.passwordResetToken = none)
    (huniq : ∀ v ∈ db, v.passwordResetToken = some hashed → v.id = u2.id) :
    findResetMatch (updateUserInDb db u2) hashed t2 = none := by
  rw [findResetMatch, List.find?_eq_none]
  intro v hv
  rcases List.mem_map.mp hv with ⟨w, hw, hwv⟩
  by_cases hid : (w.id == u2.id) = true
  · rw [if_pos hid] at hwv
    subst hwv
    simp [hclear]
  · rw [if_neg hid] at hwv
    subst hwv
    intro hpred
    have hmid : w.passwordResetToken = some hashed := by
      rcases Bool.and_eq_true _ _ |>.mp hpred with ⟨hab, -⟩
      rcases Bool.and_eq_true _ _ |>.mp hab with ⟨-, hbeq⟩
      exact beq_iff_eq.mp hbeq
    exact hid (beq_iff_eq.mpr (huniq w hw hmid))

/-- C6: consuming a valid, unexpired reset token succeeds, stores the new
password hash, applies the `passwordChangedAt` skew, and clears both
reset-token fields, so presenting the same plaintext again — at any later
time, with any new password — fails with 400 "Token is invalid or has
expired".  The uniqueness hypothesis says the consumer was the only holder
of the token hash, as holds for a freshly generated random token. -/
theorem resetPassword_single_use (bhash sha256 : String → String)
    (db : List User) (u : User) (tok pw pc rt1 : String) (t1 : Nat)
    (hfind : findResetMatch db (sha256 tok) t1 = some u)
    (huniq : ∀ v ∈ db, v.passwordResetToken = some (sha256 tok) → v.id = u.id)
    (hvalid : validPassword pw pc = true) :
    ∃ u3,
      resetPassword bhash sha256 db tok pw pc rt1 t1 =
        (updateUserInDb db u3, .ok u3) ∧
      u3.password = bhash pw ∧
      u3.passwordChangedAt = some (t1 - 1000) ∧
      u3.passwordResetToken = none ∧
      u3.passwordResetExpires = none ∧
      u3.id = u.id ∧
      (∀ pw2 pc2 rt2 t2,
        (resetPassword bhash sha256 (updateUserInDb db u3) tok pw2 pc2 rt2
            t2).2 =
          .error ⟨400, "Token is invalid or has expired"⟩) := by
  refine ⟨createSendTokenUser
      { applyPasswordChange bhash u pw t1 with
          passwordResetToken := none, passwordResetExpires := none } rt1 t1,
    ?_, rfl, rfl, rfl, rfl, rfl, ?_⟩
  · simp only [resetPassword, hfind, hvalid, if_true]
  · intro pw2 pc2 rt2 t2
    have hnone := findResetMatch_after_clear db
      (createSendTokenUser
        { applyPasswordChange bhash u pw t1 with
            passwordResetToken := none, passwordResetExpires := none } rt1 t1)
      (sha256 tok) t2 rfl huniq
    simp only [resetPassword, hnone]

/-- Witness for C6 at a concrete store, hash functions and token. -/
theorem resetPassword_single_use_witness :
    ∃ u3,
      resetPassword (fun s => String.append "h;" s)
          (fun s => String.append "s;" s)
          [{ sampleUser with
               passwordResetToken := some "s;tok1",
               passwordResetExpires := some 9000 }]
          "tok1" "NewSecret1" "NewSecret1" "rtA" 100 =
        (updateUserInDb
          [{ sampleUser with
               passwordResetToken := some "s;tok1",
               passwordResetExpires := some 9000 }] u3, .ok u3) ∧
      u3.password = String.append "h;" "NewSecret1" ∧
      u3.passwordChangedAt = some (100 - 1000) ∧
      u3.passwordResetToken = none ∧
      u3.passwordResetExpires = none ∧
      u3.id = ({ sampleUser with
                   passwordResetToken := some "s;tok1",
                   passwordResetExpires := some 9000 } : User).id ∧
      (∀ pw2 pc2 rt2 t2,
        (resetPassword (fun s => String.append "h;" s)
            (fun s => String.append "s;" s)
            (updateUserInDb
              [{ sampleUser with
                   passwordResetToken := some "s;tok1",
                   passwordResetExpires := some 9000 }] u3)
            "tok1" pw2 pc2 rt2 t2).2 =
          .error ⟨400, "Token is invalid or has expired"⟩) :=
  resetPassword_single_use _ _ _ _ _ _ _ _ _
    (by rfl) (by decide) (by rfl)

/-! ### C3: the lockout scenario -/

/-- A nonempty string fails the JS falsy check. -/
theorem ne_empty_isEmpty_false (s : String) (h : s ≠ "") :
    s.isEmpty = false := by
  rw [Bool.eq_false_iff]
  intro he
  exact h ((String.isEmpty_iff s).mp he)

/-- Incrementing the attempt counter never touches the record id. -/
theorem incLoginAttempts_id (u : User) (t : Nat) :
    (incLoginAttempts u t).id = u.id := by
  unfold incLoginAttempts
  cases u.lockUntil with
  | none => rfl
  | some lu => by_cases h : lu < t <;> simp [h]

/-- Below the 5-failure cap a failed attempt only increments the counter. -/
theorem incLoginAttempts_below_cap (u : User) (t : Nat)
    (hL : u.lockUntil = none) (hA : u.loginAttempts + 1 < 5) :
    incLoginAttempts u t = { u with loginAttempts := u.loginAttempts + 1 } := by
  simp only [incLoginAttempts, hL]
  have h5 : ¬ (5 ≤ u.loginAttempts + 1) := by omega
  simp [h5, hL]

/-- The fifth consecutive failure sets the two-hour lock. -/
theorem incLoginAttempts_reaches_cap (u : User) (t : Nat)
    (hL : u.lockUntil = none) (hA : u.loginAttempts = 4) :
    incLoginAttempts u t =
      { u with loginAttempts := 5,
               lockUntil := some (t + 2 * 60 * 60 * 1000) } := by
  simp only [incLoginAttempts, hL, hA]
  simp [isLocked, hL]

/-- On a single-user store, a failed login for an unlocked account answers
401 and writes back the incremented attempt state. -/
theorem login_fail_singleton (bhash : String → String) (u : User)
    (email pw rt : String) (now : Nat)
    (hemail : u.email = email) (hactive : u.active = true)
    (hne : email ≠ "") (hpne : pw ≠ "")
    (hnl : isLocked u now = false)
    (hwrong : bhash pw ≠ u.password) :
    login bhash [u] email pw rt now =
      ([incLoginAttempts u now],
       .error ⟨401, "Incorrect email or password"⟩) := by
  have hfind : findActiveByEmail [u] email = some u := by
    simp [findActiveByEmail, List.find?, hemail, hactive]
  have hbe : (bhash pw == u.password) = false := by
    rw [Bool.eq_false_iff]
    intro hb
    exact hwrong (beq_iff_eq.mp hb)
  simp [login, ne_empty_isEmpty_false email hne, ne_empty_isEmpty_false pw hpne,
    hfind, hnl, hbe, updateUserInDb, incLoginAttempts_id]

/-- A login attempt against a currently locked account answers 423 for every
submitted password, before any comparison can matter. -/
theorem login_locked_423 (bhash : String → String) (db : List User)
    (u : User) (email pw rt : String) (now : Nat)
    (hne : email ≠ "") (hpne : pw ≠ "")
    (hfind : findActiveByEmail db email = some u)
    (hlock : isLocked u now = true) :
    login bhash db email pw rt now =
      (db, .error ⟨423, "Account temporarily locked due to too many failed login attempts"⟩) := by
  simp [login, ne_empty_isEmpty_false email hne, ne_empty_isEmpty_false pw hpne,
    hfind, hlock]

/-- C3: starting from a fresh unlocked account, five consecutive failed
logins leave the account with `loginAttempts = 5` and a lock until the fifth
failure's time plus two hours, and a sixth attempt with the correct password
inside the lock window is answered 423 AccountLocked (not 401, not
success). -/
theorem login_lockout_scenario (bhash : String → String) (u0 : User)
    (email wrong correct rt : String) (t1 t2 t3 t4 t5 t6 : Nat)
    (hemail : u0.email = email) (hactive : u0.active = true)
    (hA : u0.loginAttempts = 0) (hL : u0.lockUntil = none)
    (hne : email ≠ "") (hwne : wrong ≠ "") (hcne : correct ≠ "")
    (hwrong : bhash wrong ≠ u0.password)
    (hcorrect : bhash correct = u0.password)
    (hwin : t6 < t5 + 2 * 60 * 60 * 1000) :
    [t1, t2, t3, t4, t5].foldl
        (fun db t => (login bhash db email wrong rt t).1) [u0] =
      [{ u0 with loginAttempts := 5,
                 lockUntil := some (t5 + 2 * 60 * 60 * 1000) }] ∧
    (login bhash
        ([t1, t2, t3, t4, t5].foldl
          (fun db t => (login bhash db email wrong rt t).1) [u0])
        email correct rt t6).2 =
      .error ⟨423, "Account temporarily locked due to too many failed login attempts"⟩ := by
  have s1 : login bhash [u0] email wrong rt t1 =
      ([{ u0 with loginAttempts := 1 }],
       .error ⟨401, "Incorrect email or password"⟩) := by
    rw [login_fail_singleton bhash u0 email wrong rt t1 hemail hactive hne hwne
      (by simp [isLocked, hL]) hwrong]
    rw [incLoginAttempts_below_cap u0 t1 hL (by omega), hA]
  have s2 : login bhash [{ u0 with loginAttempts := 1 }] email wrong rt t2 =
      ([{ u0 with loginAttempts := 2 }],
       .error ⟨401, "Incorrect email or password"⟩) := by
    rw [login_fail_singleton bhash { u0 with loginAttempts := 1 } email wrong
      rt t2 hemail hactive hne hwne (by simp [isLocked, hL]) hwrong]
    rw [incLoginAttempts_below_cap { u0 with loginAttempts := 1 } t2
      (by simp [hL]) (by show 1 + 1 < 5; omega)]
  have s3 : login bhash [{ u0 with loginAttempts := 2 }] email wrong rt t3 =
      ([{ u0 with loginAttempts := 3 }],
       .error ⟨401, "Incorrect email or password"⟩) := by
    rw [login_fail_singleton bhash { u0 with loginAttempts := 2 } email wrong
      rt t3 hemail hactive hne hwne (by simp [isLocked, hL]) hwrong]
    rw [incLoginAttempts_below_cap { u0 with loginAttempts := 2 } t3
      (by simp [hL]) (by show 2 + 1 < 5; omega)]
  have s4 : login bhash [{ u0 with loginAttempts := 3 }] email wrong rt t4 =
      ([{ u0 with loginAttempts := 4 }],
       .error ⟨401, "Incorrect email or password"⟩) := by
    rw [login_fail_singleton bhash { u0 with loginAttempts := 3 } email wrong
      rt t4 hemail hactive hne hwne (by simp [isLocked, hL]) hwrong]
    rw [incLoginAttempts_below_cap { u0 with loginAttempts := 3 } t4
      (by simp [hL]) (by show 3 + 1 < 5; omega)]
  have s5 : login bhash [{ u0 with loginAttempts := 4 }] email wrong rt t5 =
      ([{ u0 with loginAttempts := 5,
                  lockUntil := some (t5 + 2 * 60 * 60 * 1000) }],
       .error ⟨401, "Incorrect email or password"⟩) := by
    rw [login_fail_singleton bhash { u0 with loginAttempts := 4 } email wrong
      rt t5 hemail hactive hne hwne (by simp [isLocked, hL]) hwrong]
    rw [incLoginAttempts_reaches_cap { u0 with loginAttempts := 4 } t5
      (by simp [hL]) rfl]
  have hfold : [t1, t2, t3, t4, t5].foldl
      (fun db t => (login bhash db email wrong rt t).1) [u0] =
      [{ u0 with loginAttempts := 5,
                 lockUntil := some (t5 + 2 * 60 * 60 * 1000) }] := by
    simp only [List.foldl, s1, s2, s3, s4, s5]
  refine ⟨hfold, ?_⟩
  rw [hfold]
  have hfind5 : findActiveByEmail
      [{ u0 with loginAttempts := 5,
                 lockUntil := some (t5 + 2 * 60 * 60 * 1000) }] email =
      some { u0 with loginAttempts := 5,
                     lockUntil := some (t5 + 2 * 60 * 60 * 1000) } := by
    simp [findActiveByEmail, List.find?, hemail, hactive]
  have hlock5 : isLocked
      { u0 with loginAttempts := 5,
                lockUntil := some (t5 + 2 * 60 * 60 * 1000) } t6 = true := by
    simp [isLocked, hwin]
  rw [login_locked_423 bhash _
      { u0 with loginAttempts := 5,
                lockUntil := some (t5 + 2 * 60 * 60 * 1000) }
      email correct rt t6 hne hcne hfind5 hlock5]

/-- Witness for C3 at a concrete account, hash and clock values. -/
theorem login_lockout_scenario_witness :
    [1, 2, 3, 4, 5].foldl
        (fun db t =>
          (login (fun s => String.append "h;" s) db "a@b.com" "bad" "rt" t).1)
        [sampleUser] =
      [{ sampleUser with loginAttempts := 5,
                         lockUntil := some (5 + 2 * 60 * 60 * 1000) }] ∧
    (login (fun s => String.append "h;" s)
        ([1, 2, 3, 4, 5].foldl
          (fun db t =>
            (login (fun s => String.append "h;" s) db "a@b.com" "bad" "rt" t).1)
          [sampleUser])
        "a@b.com" "Secret123" "rt" 6).2 =
      .error ⟨423, "Account temporarily locked due to too many failed login attempts"⟩ :=
  login_lockout_scenario (fun s => String.append "h;" s) sampleUser
    "a@b.com" "bad" "Secret123" "rt" 1 2 3 4 5 6
    rfl rfl rfl rfl (by decide) (by decide) (by decide) (by decide) rfl
    (by decide)

end MernAuth
